import Mathlib

set_option maxRecDepth 8000

/-!
Verification of the language-teacher voice agent
(`agent/language_teacher_agent.py`): the Cerebras completion client
(`CerebrasLLM.generate`), the system-prompt builder
(`build_system_prompt`), the turn handler (`CerebrasHandler.chat`) with
its conversation log, and the entrypoint's credential handling.

The HTTP layer is modelled by an oracle `net : HttpRequest → HttpOutcome`
describing what the single `requests.post` call does; `generate` is the
pure function of that outcome that the Python code computes.
-/

namespace LangTeacher

/-- One conversational turn: a role/content pair, as the dicts built by the
handler (`{"role": ..., "content": ...}`). -/
structure ChatMessage where
  role : String
  content : String
  deriving DecidableEq

/-- Fixed fallback returned by `CerebrasLLM.generate` when the request
raises (line 78 of the source). -/
def fallbackMessage : String := "I'm having trouble connecting. Please try again."

/-- Fixed apology returned by `CerebrasLLM.generate` when the provider
returns zero choices (line 74 of the source). -/
def apologyMessage : String := "I'm sorry, I couldn't generate a response."

/-- Default `api_url` of `CerebrasLLM.__init__`. -/
def defaultApiUrl : String := "https://api.cerebras.ai/v1"

/-- Fixed model identifier set in `CerebrasLLM.__init__`. -/
def defaultModel : String := "llama3.3-70b"

/-- `message` object inside a response choice; `content = none` models a
missing `content` key (a `KeyError` in the source). -/
structure RespMessage where
  content : Option String
  deriving DecidableEq

/-- One element of the response's `choices` array; `message = none` models
a missing `message` key. -/
structure RespChoice where
  message : Option RespMessage
  deriving DecidableEq

/-- Parsed JSON response body; `choices = none` models a body without a
`choices` key (`data.get("choices")` is `None`). -/
structure RespData where
  choices : Option (List RespChoice)
  deriving DecidableEq

/-- What the single `requests.post` call does. `transportError` covers a
connection error or timeout raised by `requests.post` itself; in
`response`, `body = none` models a body on which `response.json()` (or the
subsequent dict access) raises. -/
inductive HttpOutcome where
  | transportError : HttpOutcome
  | response (status : Nat) (body : Option RespData) : HttpOutcome

/-- JSON payload of the request (lines 53-58 of the source). -/
structure Payload where
  model : String
  messages : List ChatMessage
  temperature : Rat
  max_tokens : Nat

/-- The outbound request: URL, bearer credential from the `Authorization`
header, and JSON payload. -/
structure HttpRequest where
  url : String
  bearer : Option String
  payload : Payload

/-- The request `generate` issues: `api_url + "/chat/completions"`, the
bearer credential, and the payload with the fixed model. -/
def chatCompletionsRequest (api_key : Option String) (api_url : String)
    (messages : List ChatMessage) (temperature : Rat) (max_tokens : Nat) :
    HttpRequest :=
  ⟨api_url ++ "/chat/completions", api_key,
    ⟨defaultModel, messages, temperature, max_tokens⟩⟩

/-- `CerebrasLLM.generate` (lines 40-78 of the source), as a function of
the network oracle `net`. `raise_for_status` raises exactly on status
400-599; a raised exception anywhere in the `try` block yields
`fallbackMessage`; a parsed body with a truthy non-empty `choices` yields
`choices[0]["message"]["content"]`; otherwise `apologyMessage`. -/
def generate (api_key : Option String) (api_url : String)
    (net : HttpRequest → HttpOutcome)
    (messages : List ChatMessage) (temperature : Rat) (max_tokens : Nat) :
    String :=
  match net (chatCompletionsRequest api_key api_url messages temperature max_tokens) with
  | .transportError => fallbackMessage
  | .response status body =>
    if 400 ≤ status ∧ status < 600 then fallbackMessage
    else
      match body with
      | none => fallbackMessage
      | some data =>
        match data.choices with
        | some (c :: _) =>
          match c.message with
          | none => fallbackMessage
          | some m =>
            match m.content with
            | none => fallbackMessage
            | some s => s
        | _ => apologyMessage

/-- The outcomes on which the source's `try` block raises: transport
error/timeout, `raise_for_status` (status 400-599), unparseable body, or a
first choice missing its `message` or `content` key. -/
def requestFails : HttpOutcome → Bool
  | .transportError => true
  | .response status body =>
    decide (400 ≤ status ∧ status < 600) ||
      match body with
      | none => true
      | some data =>
        match data.choices with
        | some (c :: _) =>
          match c.message with
          | none => true
          | some m => m.content.isNone
        | _ => false

/-- Fixed base instruction of `build_system_prompt` (lines 83-90). -/
def basePrompt : String :=
  "You are a patient and encouraging language teacher. Your role is to:\n- Help students practice speaking naturally\n- Correct mistakes gently and constructively\n- Ask follow-up questions to keep conversation flowing\n- Provide clear explanations when needed\n- Adjust your language to the student's level\n\nKeep responses conversational, concise, and encouraging."

/-- Clause appended for `difficulty == "beginner"` (line 93). -/
def beginnerClause : String :=
  "\n\nUse simple vocabulary and short sentences. Speak slowly and clearly."

/-- Clause appended for `difficulty == "intermediate"` (line 95). -/
def intermediateClause : String :=
  "\n\nUse moderately complex language. Introduce new vocabulary in context."

/-- Clause appended by the `else` branch (line 97). -/
def advancedClause : String :=
  "\n\nUse natural, complex language. Discuss nuanced topics."

/-- The fixed text prepended to the topic (line 100). -/
def topicMarker : String := "\n\nCurrent topic: "

/-- The `if`/`elif`/`else` chain of lines 92-97: exact match on two levels,
everything else falls through to the advanced clause. -/
def difficultyClause (difficulty : String) : String :=
  if difficulty = "beginner" then beginnerClause
  else if difficulty = "intermediate" then intermediateClause
  else advancedClause

/-- The `if topic:` append of lines 99-100; Python truthiness: the clause
is added iff `topic` is neither `None` nor the empty string. -/
def topicClause : Option String → String
  | none => ""
  | some t => if t = "" then "" else topicMarker ++ t

/-- Python truthiness of the optional `topic` argument. -/
def topicTruthy : Option String → Bool
  | none => false
  | some t => !(t == "")

/-- `build_system_prompt` (lines 81-102): base, then the difficulty clause,
then the topic clause. -/
def build_system_prompt (difficulty : String) (topic : Option String) : String :=
  basePrompt ++ difficultyClause difficulty ++ topicClause topic

/-- `l == p ++ rest` at the front: Boolean test that `p` begins `s`. -/
def prefixB : List Char → List Char → Bool
  | [], _ => true
  | _ :: _, [] => false
  | a :: xs, b :: ys => a == b && prefixB xs ys

/-- Boolean substring test: `p` occurs contiguously in `s`. -/
def containsB (p : List Char) : List Char → Bool
  | [] => p.isEmpty
  | c :: rest => prefixB p (c :: rest) || containsB p rest

/-- Substring test on strings, via their character lists. -/
def strContains (p s : String) : Bool := containsB p.data s.data

/-- `ChoiceDelta(content=..., role=...)` of the returned chunk (lines
177-180). -/
structure ChoiceDelta where
  content : String
  role : String
  deriving DecidableEq

/-- `Choice(delta=...)` of the returned chunk (line 176). -/
structure ChunkChoice where
  delta : ChoiceDelta
  deriving DecidableEq

/-- `ChatChunk(choices=[...])` returned to the voice pipeline (lines
174-183). -/
structure ChatChunk where
  choices : List ChunkChoice
  deriving DecidableEq

/-- `CerebrasHandler.__init__` (line 156): the log is seeded with exactly
one system message carrying the built prompt. -/
def initialMessages (difficulty : String) (topic : Option String) :
    List ChatMessage :=
  [⟨"system", build_system_prompt difficulty topic⟩]

/-- `chat_ctx.messages[-1].content if chat_ctx.messages else ""`
(line 160). -/
def lastContent (ctxMessages : List ChatMessage) : String :=
  match ctxMessages.getLast? with
  | some m => m.content
  | none => ""

/-- Result of one `CerebrasHandler.chat` call: the handler's
`self.messages` afterwards, the returned value (`none` when the `if` body
is skipped and the coroutine returns `None`), and the argument of each
`generate` invocation made, in order. -/
structure ChatResult where
  messages : List ChatMessage
  chunk : Option ChatChunk
  calls : List (List ChatMessage)
  deriving DecidableEq

/-- `CerebrasHandler.chat` (lines 158-183) with the completion client
abstracted as `gen` returning the completion string — that is, the value
the `await` of line 166 would deliver if the coroutine were actually run
to completion. This is an idealization: the async-faithful model of what
line 166 really produces is `chatAsync` (the unawaited coroutine object).
The two models agree on everything that does not depend on the response
value: the falsy branch (log unchanged, `None` returned, no invocation)
and the roles and order of the appended entries. -/
def chat (gen : List ChatMessage → String)
    (st : List ChatMessage) (ctxMessages : List ChatMessage) : ChatResult :=
  let user_message := lastContent ctxMessages
  if user_message ≠ "" then
    let withUser := st ++ [⟨"user", user_message⟩]
    let response := gen withUser
    ⟨withUser ++ [⟨"assistant", response⟩],
      some ⟨[⟨⟨response, "assistant"⟩⟩]⟩,
      [withUser]⟩
  else ⟨st, none, []⟩

/-- Tail of a well-formed log: a concatenation of user/assistant pairs. -/
def pairsUA : List ChatMessage → Bool
  | [] => true
  | [_] => false
  | u :: a :: rest => (u.role == "user" && a.role == "assistant") && pairsUA rest

/-- Well-formed conversation log: a leading system message followed by
strictly alternating user/assistant pairs. -/
def validLog : List ChatMessage → Bool
  | [] => false
  | s :: rest => s.role == "system" && pairsUA rest

/-- The `CerebrasLLM` fields set by `__init__` (lines 35-38); `api_key` is
an `Option` because `os.getenv` returns `None` when the variable is
absent. -/
structure CerebrasLLMConfig where
  api_key : Option String
  api_url : String
  model : String
  deriving DecidableEq

/-- Lines 131-132 of the source: read `CEREBRAS_API_KEY` from the
environment and construct `CerebrasLLM` with it. The codomain is `Except`
so that "surfaces a configuration error" is expressible; the source has no
failure branch, so every input maps to `Except.ok`. -/
def entrypointInitLLM (envKey : Option String) :
    Except String CerebrasLLMConfig :=
  Except.ok ⟨envKey, defaultApiUrl, defaultModel⟩

/-- A network oracle answering every request with status 300 (a non-2xx
status on which `raise_for_status` does not raise) and a well-formed
completion body. -/
def redirectNet : HttpRequest → HttpOutcome := fun _ =>
  HttpOutcome.response 300 (some ⟨some [⟨some ⟨some "Salut!"⟩⟩]⟩)

/-- A Python runtime value that can end up in a `content` field of the
handler's dicts: an actual string, or the unawaited coroutine object that
calling the `async def generate` creates — it packages the pending
`generate(self.messages)` call (here: the argument it was created with)
without running its body. -/
inductive PyValue where
  | str (s : String)
  | coroutine (pending : List (String × PyValue))

/-- Discriminator: is the value an actual string? -/
def PyValue.isStr : PyValue → Bool
  | .str _ => true
  | .coroutine _ => false

/-- `CerebrasHandler.__init__` (line 156) in the async-faithful model:
the seeded system message's content is a real string. -/
def initialPyMessages (difficulty : String) (topic : Option String) :
    List (String × PyValue) :=
  [("system", PyValue.str (build_system_prompt difficulty topic))]

/-- `ChoiceDelta(content=response, role="assistant")` (lines 177-180) as
actually constructed: `content` receives whatever value `response` holds,
string or not. -/
structure PyChoiceDelta where
  content : PyValue
  role : String

/-- `Choice(delta=...)` (line 176) in the async-faithful model. -/
structure PyChunkChoice where
  delta : PyChoiceDelta

/-- `ChatChunk(choices=[...])` (lines 174-183) in the async-faithful
model. -/
structure PyChatChunk where
  choices : List PyChunkChoice

/-- Result of one `chat` call in the async-faithful model: the handler's
log afterwards, the returned value, and the argument of each execution of
`generate`'s body (each such execution would issue one HTTP request). -/
structure AsyncChatResult where
  messages : List (String × PyValue)
  chunk : Option PyChatChunk
  generateRuns : List (List (String × PyValue))

/-- `CerebrasHandler.chat` (lines 158-183) with the faithful semantics of
line 166: `await asyncio.to_thread(self.cerebras.generate, self.messages)`
calls `self.cerebras.generate(self.messages)` in a worker thread, and
since `generate` is `async def` (line 40) that call only creates and
returns a coroutine object; the single `await` applies to `to_thread`, so
the coroutine itself is never awaited, `generate`'s body never executes,
no completion request is made (`generateRuns = []`), and `response` — the
value appended as the assistant content and placed in the chunk — is the
coroutine object, not a string. -/
def chatAsync (st : List (String × PyValue))
    (ctxMessages : List ChatMessage) : AsyncChatResult :=
  let user_message := lastContent ctxMessages
  if user_message ≠ "" then
    let withUser := st ++ [("user", PyValue.str user_message)]
    let response := PyValue.coroutine withUser
    ⟨withUser ++ [("assistant", response)],
      some ⟨[⟨⟨response, "assistant"⟩⟩]⟩,
      []⟩
  else ⟨st, none, []⟩

/- ------------------------------------------------------------------ -/
/- Helper lemmas -/
/- ------------------------------------------------------------------ -/

lemma prefixB_self_append (p t : List Char) : prefixB p (p ++ t) = true := by
  induction p with
  | nil => rfl
  | cons a xs ih => simp [prefixB, ih]

lemma containsB_of_prefixB {p s : List Char} (h : prefixB p s = true) :
    containsB p s = true := by
  cases s with
  | nil =>
    cases p with
    | nil => rfl
    | cons a xs => simp [prefixB] at h
  | cons c rest => simp [containsB, h]

lemma containsB_append_left (l : List Char) {p s : List Char}
    (h : containsB p s = true) : containsB p (l ++ s) = true := by
  induction l with
  | nil => simpa using h
  | cons c cs ih => simp [containsB, ih]

lemma containsB_mid (l p t : List Char) :
    containsB p (l ++ (p ++ t)) = true :=
  containsB_append_left l (containsB_of_prefixB (prefixB_self_append p t))

lemma pairsUA_append {xs ys : List ChatMessage} (hx : pairsUA xs = true)
    (hy : pairsUA ys = true) : pairsUA (xs ++ ys) = true := by
  induction xs using pairsUA.induct with
  | case1 => simpa using hy
  | case2 x => simp [pairsUA] at hx
  | case3 u a rest ih =>
    simp [pairsUA] at hx ⊢
    exact ⟨⟨hx.1.1, hx.1.2⟩, ih hx.2⟩

/- ------------------------------------------------------------------ -/
/- Claim theorems -/
/- ------------------------------------------------------------------ -/

/-- Claim C3: for every difficulty in the three enumerated levels and
every optional topic, `build_system_prompt` is total and deterministic (a
Lean function), its result is exactly the fixed base followed by the
matching difficulty clause followed by the topic part, it contains the
base and the matching clause as substrings, the appended clause is the one
matching the level, and it contains the topic marker iff the topic is
non-empty (Python-truthy). -/
theorem build_system_prompt_correct (d : String)
    (hd : d = "beginner" ∨ d = "intermediate" ∨ d = "advanced")
    (topic : Option String) :
    build_system_prompt d topic
        = basePrompt ++ difficultyClause d ++ topicClause topic
    ∧ strContains basePrompt (build_system_prompt d topic) = true
    ∧ strContains (difficultyClause d) (build_system_prompt d topic) = true
    ∧ (d = "beginner" → difficultyClause d = beginnerClause)
    ∧ (d = "intermediate" → difficultyClause d = intermediateClause)
    ∧ (d = "advanced" → difficultyClause d = advancedClause)
    ∧ (strContains topicMarker (build_system_prompt d topic) = true
        ↔ topicTruthy topic = true) := by
  refine ⟨rfl, ?_, ?_, ?_, ?_, ?_, ?_⟩
  · show containsB basePrompt.data (build_system_prompt d topic).data = true
    have hdata : (build_system_prompt d topic).data
        = (basePrompt.data ++ (difficultyClause d).data)
          ++ (topicClause topic).data := rfl
    rw [hdata, List.append_assoc]
    exact containsB_of_prefixB (prefixB_self_append _ _)
  · show containsB (difficultyClause d).data (build_system_prompt d topic).data = true
    have hdata : (build_system_prompt d topic).data
        = (basePrompt.data ++ (difficultyClause d).data)
          ++ (topicClause topic).data := rfl
    rw [hdata, List.append_assoc]
    exact containsB_mid _ _ _
  · intro h
    subst h
    rfl
  · intro h
    subst h
    rfl
  · intro h
    subst h
    rfl
  · constructor
    · intro hcont
      cases htop : topic with
      | none =>
        subst htop
        rcases hd with h | h | h <;> subst h <;> exact absurd hcont (by decide)
      | some t =>
        subst htop
        by_cases ht : t = ""
        · subst ht
          rcases hd with h | h | h <;> subst h <;> exact absurd hcont (by decide)
        · simp [topicTruthy, ht]
    · intro htruthy
      cases htop : topic with
      | none =>
        subst htop
        simp [topicTruthy] at htruthy
      | some t =>
        subst htop
        have ht : ¬ t = "" := by
          intro h
          subst h
          simp [topicTruthy] at htruthy
        have hcl : topicClause (some t) = topicMarker ++ t := by
          simp [topicClause, ht]
        show containsB topicMarker.data (build_system_prompt d (some t)).data = true
        have hdata : (build_system_prompt d (some t)).data
            = (basePrompt.data ++ (difficultyClause d).data)
              ++ (topicMarker.data ++ t.data) := by
          show (basePrompt ++ difficultyClause d ++ topicClause (some t)).data = _
          rw [hcl]
          rfl
        rw [hdata]
        exact containsB_mid _ _ _

/-- Witness for C3 at difficulty "intermediate", topic "travel". -/
theorem build_system_prompt_correct_witness :
    build_system_prompt "intermediate" (some "travel")
        = basePrompt ++ difficultyClause "intermediate"
          ++ topicClause (some "travel")
    ∧ strContains basePrompt
        (build_system_prompt "intermediate" (some "travel")) = true
    ∧ strContains (difficultyClause "intermediate")
        (build_system_prompt "intermediate" (some "travel")) = true
    ∧ ("intermediate" = "beginner"
        → difficultyClause "intermediate" = beginnerClause)
    ∧ ("intermediate" = "intermediate"
        → difficultyClause "intermediate" = intermediateClause)
    ∧ ("intermediate" = "advanced"
        → difficultyClause "intermediate" = advancedClause)
    ∧ (strContains topicMarker
        (build_system_prompt "intermediate" (some "travel")) = true
        ↔ topicTruthy (some "travel") = true) :=
  build_system_prompt_correct "intermediate" (Or.inr (Or.inl rfl)) (some "travel")

/-- Claim C4: a difficulty outside the three enumerated levels falls
through to the `else` branch, giving the same prompt as "advanced". -/
theorem build_system_prompt_unrecognized (d : String) (topic : Option String)
    (h1 : d ≠ "beginner") (h2 : d ≠ "intermediate") (_h3 : d ≠ "advanced") :
    build_system_prompt d topic = build_system_prompt "advanced" topic := by
  unfold build_system_prompt difficultyClause
  rw [if_neg h1, if_neg h2, if_neg (by decide), if_neg (by decide)]

/-- Witness for C4 at the unrecognized difficulty "expert". -/
theorem build_system_prompt_unrecognized_witness :
    ("expert" : String) ≠ "beginner"
    ∧ ("expert" : String) ≠ "intermediate"
    ∧ ("expert" : String) ≠ "advanced"
    ∧ build_system_prompt "expert" none = build_system_prompt "advanced" none :=
  ⟨by decide, by decide, by decide,
    build_system_prompt_unrecognized "expert" none (by decide) (by decide)
      (by decide)⟩

/-- Counterexample to claim C1 as stated: a non-2xx response (status 300)
with a well-formed completion body makes `generate` return the body's
content, not the fixed connection-trouble string — `raise_for_status`
raises only on 4xx/5xx, so "non-2xx status" is not always converted to the
fallback. -/
theorem generate_non2xx_counterexample :
    (¬ (200 ≤ 300 ∧ 300 < 300))
    ∧ generate none defaultApiUrl redirectNet [] (7 / 10) 500 = "Salut!"
    ∧ "Salut!" ≠ fallbackMessage :=
  ⟨by decide, rfl, by decide⟩

/-- Claim C1 (amended): for every message list, temperature and
max_tokens, `generate` is total (it is a Lean function into `String`, so
it never raises), and whenever the request fails — transport error or
timeout, 4xx/5xx status (what `raise_for_status` flags), unparseable
body, or a first choice missing its `message`/`content` — it returns the
fixed string "I'm having trouble connecting. Please try again.". -/
theorem generate_failure_fallback (api_key : Option String)
    (api_url : String) (net : HttpRequest → HttpOutcome)
    (messages : List ChatMessage) (temperature : Rat) (max_tokens : Nat)
    (h : requestFails
        (net (chatCompletionsRequest api_key api_url messages temperature
          max_tokens)) = true) :
    generate api_key api_url net messages temperature max_tokens
      = fallbackMessage := by
  unfold generate
  cases hnet : net (chatCompletionsRequest api_key api_url messages
      temperature max_tokens) with
  | transportError => rfl
  | response status body =>
    rw [hnet] at h
    dsimp only
    by_cases hs : 400 ≤ status ∧ status < 600
    · rw [if_pos hs]
    · rw [if_neg hs]
      simp only [requestFails, decide_eq_true_eq, Bool.or_eq_true] at h
      rcases h with h | h
      · exact absurd h hs
      · cases body with
        | none => rfl
        | some data =>
          cases hch : data.choices with
          | none => simp [hch] at h
          | some list =>
            cases list with
            | nil => simp [hch] at h
            | cons c rest =>
              cases hm : c.message with
              | none => simp [hch, hm]
              | some m =>
                cases hcont : m.content with
                | none => simp [hch, hm, hcont]
                | some s => simp [hch, hm, hcont] at h

/-- Witness for C1 (amended): a network that raises (transport error /
timeout) yields the fallback string. -/
theorem generate_failure_fallback_witness :
    requestFails
        ((fun _ => HttpOutcome.transportError)
          (chatCompletionsRequest none defaultApiUrl [] (7 / 10) 500)) = true
    ∧ generate none defaultApiUrl (fun _ => HttpOutcome.transportError) []
        (7 / 10) 500 = fallbackMessage :=
  ⟨rfl, generate_failure_fallback none defaultApiUrl
    (fun _ => HttpOutcome.transportError) [] (7 / 10) 500 rfl⟩

/-- Claim C5: a 2xx response whose parsed body has zero choices (or no
`choices` key) makes `generate` return the fixed apology string. -/
theorem generate_zero_choices_apology (api_key : Option String)
    (api_url : String) (net : HttpRequest → HttpOutcome)
    (messages : List ChatMessage) (temperature : Rat) (max_tokens : Nat)
    (status : Nat) (data : RespData)
    (hnet : net (chatCompletionsRequest api_key api_url messages temperature
        max_tokens) = HttpOutcome.response status (some data))
    (hstatus : 200 ≤ status ∧ status < 300)
    (hch : data.choices = none ∨ data.choices = some []) :
    generate api_key api_url net messages temperature max_tokens
      = apologyMessage := by
  unfold generate
  rw [hnet]
  dsimp only
  rw [if_neg (by omega)]
  rcases hch with h | h <;> simp [h, apologyMessage]

/-- Witness for C5: status 200 with an empty `choices` array. -/
theorem generate_zero_choices_apology_witness :
    (fun _ => HttpOutcome.response 200 (some ⟨some []⟩))
        (chatCompletionsRequest none defaultApiUrl [] (7 / 10) 500)
      = HttpOutcome.response 200 (some ⟨some []⟩)
    ∧ (200 ≤ 200 ∧ 200 < 300)
    ∧ generate none defaultApiUrl
        (fun _ => HttpOutcome.response 200 (some ⟨some []⟩)) [] (7 / 10) 500
      = apologyMessage :=
  ⟨rfl, by decide,
    generate_zero_choices_apology none defaultApiUrl
      (fun _ => HttpOutcome.response 200 (some ⟨some []⟩)) [] (7 / 10) 500
      200 ⟨some []⟩ rfl (by decide) (Or.inr rfl)⟩

/-- Claim C6: a 2xx response whose body has at least one choice makes
`generate` return `choices[0].message.content` verbatim. -/
theorem generate_success_verbatim (api_key : Option String)
    (api_url : String) (net : HttpRequest → HttpOutcome)
    (messages : List ChatMessage) (temperature : Rat) (max_tokens : Nat)
    (status : Nat) (data : RespData) (c : RespChoice) (rest : List RespChoice)
    (m : RespMessage) (s : String)
    (hnet : net (chatCompletionsRequest api_key api_url messages temperature
        max_tokens) = HttpOutcome.response status (some data))
    (hstatus : 200 ≤ status ∧ status < 300)
    (hch : data.choices = some (c :: rest))
    (hm : c.message = some m) (hcont : m.content = some s) :
    generate api_key api_url net messages temperature max_tokens = s := by
  unfold generate
  rw [hnet]
  dsimp only
  rw [if_neg (by omega)]
  simp [hch, hm, hcont]

/-- Witness for C6: status 200 with one choice whose content is
"Bonjour, how can I help?". -/
theorem generate_success_verbatim_witness :
    (fun _ => HttpOutcome.response 200
        (some ⟨some [⟨some ⟨some "Bonjour, how can I help?"⟩⟩]⟩))
        (chatCompletionsRequest none defaultApiUrl [] (7 / 10) 500)
      = HttpOutcome.response 200
          (some ⟨some [⟨some ⟨some "Bonjour, how can I help?"⟩⟩]⟩)
    ∧ (200 ≤ 200 ∧ 200 < 300)
    ∧ generate none defaultApiUrl
        (fun _ => HttpOutcome.response 200
          (some ⟨some [⟨some ⟨some "Bonjour, how can I help?"⟩⟩]⟩))
        [] (7 / 10) 500 = "Bonjour, how can I help?" :=
  ⟨rfl, by decide,
    generate_success_verbatim none defaultApiUrl
      (fun _ => HttpOutcome.response 200
        (some ⟨some [⟨some ⟨some "Bonjour, how can I help?"⟩⟩]⟩))
      [] (7 / 10) 500 200 ⟨some [⟨some ⟨some "Bonjour, how can I help?"⟩⟩]⟩
      ⟨some ⟨some "Bonjour, how can I help?"⟩⟩ [] ⟨some "Bonjour, how can I help?"⟩
      "Bonjour, how can I help?" rfl (by decide) rfl rfl rfl⟩

/-- Claim C2 states the intended turn protocol, but the code diverges: at
the failing input — a freshly seeded log and the non-empty utterance
"Hello" — the async-faithful model shows that the user message is
appended, yet the assistant message and the returned chunk carry the
unawaited coroutine object created at line 166, which is not a string and
hence not the text returned by the completion client, and `generate`'s
body never runs, so the completion client is invoked zero times rather
than exactly once. -/
theorem chat_turn_code_bug :
    (chatAsync (initialPyMessages "beginner" none)
          [⟨"user", "Hello"⟩]).messages
        = initialPyMessages "beginner" none
          ++ [("user", PyValue.str "Hello"),
              ("assistant", PyValue.coroutine
                (initialPyMessages "beginner" none
                  ++ [("user", PyValue.str "Hello")]))]
    ∧ (chatAsync (initialPyMessages "beginner" none)
          [⟨"user", "Hello"⟩]).chunk
        = some ⟨[⟨⟨PyValue.coroutine
            (initialPyMessages "beginner" none
              ++ [("user", PyValue.str "Hello")]), "assistant"⟩⟩]⟩
    ∧ (chatAsync (initialPyMessages "beginner" none)
          [⟨"user", "Hello"⟩]).generateRuns = []
    ∧ PyValue.isStr (PyValue.coroutine
        (initialPyMessages "beginner" none
          ++ [("user", PyValue.str "Hello")])) = false :=
  ⟨rfl, rfl, rfl, rfl⟩

/-- Claim C7: the conversation log invariant — one leading system message
seeded at session start, followed by strictly alternating user/assistant
pairs — holds after initialization and is preserved by every `chat` call
(the handler only ever appends a user message immediately followed by the
generated assistant message). -/
theorem conversation_log_invariant (d : String) (t : Option String)
    (gen : List ChatMessage → String) (st ctx : List ChatMessage) :
    validLog (initialMessages d t) = true
    ∧ (validLog st = true → validLog (chat gen st ctx).messages = true) := by
  constructor
  · rfl
  · intro h
    by_cases hne : lastContent ctx ≠ ""
    · simp only [chat]
      rw [if_pos hne]
      cases st with
      | nil => simp [validLog] at h
      | cons s rest =>
        simp only [validLog, Bool.and_eq_true, beq_iff_eq] at h
        show validLog (((s :: rest) ++ [⟨"user", lastContent ctx⟩]) ++ [_]) = true
        rw [List.cons_append, List.cons_append, List.append_assoc]
        simp only [validLog, Bool.and_eq_true, beq_iff_eq]
        exact ⟨h.1, pairsUA_append h.2 rfl⟩
    · simp only [chat]
      rw [if_neg hne]
      exact h

/-- Witness for C7: the seeded beginner log, one "Hello" turn. -/
theorem conversation_log_invariant_witness :
    validLog (initialMessages "beginner" none) = true
    ∧ validLog (chat (fun _ => "Welcome!") (initialMessages "beginner" none)
        [⟨"user", "Hello"⟩]).messages = true :=
  ⟨(conversation_log_invariant "beginner" none (fun _ => "Welcome!")
      (initialMessages "beginner" none) [⟨"user", "Hello"⟩]).1,
    (conversation_log_invariant "beginner" none (fun _ => "Welcome!")
      (initialMessages "beginner" none) [⟨"user", "Hello"⟩]).2 rfl⟩

/-- Claim C9: when the incoming utterance text is empty (also when the
chat context has no messages, in which case the text defaults to ""), the
handler ignores the utterance: its log is unchanged and the completion
client is never invoked. -/
theorem chat_empty_noop (gen : List ChatMessage → String)
    (st ctx : List ChatMessage) (h : lastContent ctx = "") :
    (chat gen st ctx).messages = st ∧ (chat gen st ctx).calls = [] := by
  have hni : ¬ (lastContent ctx ≠ "") := by simp [h]
  simp only [chat]
  rw [if_neg hni]
  exact ⟨rfl, rfl⟩

/-- Witness for C9: an empty chat context. -/
theorem chat_empty_noop_witness :
    lastContent [] = ""
    ∧ (chat (fun _ => "Hi!") (initialMessages "beginner" none) []).messages
        = initialMessages "beginner" none
    ∧ (chat (fun _ => "Hi!") (initialMessages "beginner" none) []).calls
        = [] :=
  ⟨rfl,
    (chat_empty_noop (fun _ => "Hi!") (initialMessages "beginner" none) []
      rfl).1,
    (chat_empty_noop (fun _ => "Hi!") (initialMessages "beginner" none) []
      rfl).2⟩

/-- Claim C10: when the chat context is empty or its last message has
empty content, `chat` returns `None` — no chunk object at all. -/
theorem chat_empty_returns_none (gen : List ChatMessage → String)
    (st ctx : List ChatMessage)
    (h : ctx = [] ∨ ∃ m, ctx.getLast? = some m ∧ m.content = "") :
    (chat gen st ctx).chunk = none := by
  have hl : lastContent ctx = "" := by
    rcases h with h | ⟨m, hm, hc⟩
    · subst h
      rfl
    · simp [lastContent, hm, hc]
  have hni : ¬ (lastContent ctx ≠ "") := by simp [hl]
  simp only [chat]
  rw [if_neg hni]

/-- Witness for C10: a context whose last message has empty content. -/
theorem chat_empty_returns_none_witness :
    (([⟨"user", ""⟩] : List ChatMessage).getLast? = some ⟨"user", ""⟩
        ∧ (⟨"user", ""⟩ : ChatMessage).content = "")
    ∧ (chat (fun _ => "Hi!") (initialMessages "beginner" none)
        [⟨"user", ""⟩]).chunk = none :=
  ⟨⟨rfl, rfl⟩,
    chat_empty_returns_none (fun _ => "Hi!") (initialMessages "beginner" none)
      [⟨"user", ""⟩] (Or.inr ⟨⟨"user", ""⟩, rfl, rfl⟩)⟩

/-- Counterexample to claim C8 as stated: with `CEREBRAS_API_KEY` absent
(`none`), the entrypoint surfaces no configuration error — it constructs
the client with the absent credential and proceeds, so the session does
begin. -/
theorem missing_key_no_startup_error :
    entrypointInitLLM none = Except.ok ⟨none, defaultApiUrl, defaultModel⟩
    ∧ (entrypointInitLLM none).isOk = true :=
  ⟨rfl, rfl⟩

/-- Claim C8 (amended): the credential read at process start is never
validated — for every environment value (present or absent) the entrypoint
constructs the `CerebrasLLM` with exactly that value and continues to
start the session; a missing key is passed through silently as `none`. -/
theorem entrypoint_accepts_any_key (envKey : Option String) :
    entrypointInitLLM envKey = Except.ok ⟨envKey, defaultApiUrl, defaultModel⟩ :=
  rfl

end LangTeacher
